import Mathlib

/-!
Shallow embedding of the Food-Service restaurant POS backend
(`src/backend/src/routes/orders.ts`, `payments.ts`, `kds.ts`,
`src/backend/src/services/aiService.ts`, `squareService.ts`,
`src/backend/src/index.ts`, and the inventory route in `src/unnamed/part_006`).

Currency amounts are modelled as rationals (the source computes with JS
numbers; all claims here are about the algebraic relations of the stored
values).  Database access through Prisma is modelled as explicit state
passing over a record of lists.  Calls to the external Square processor are
modelled by an explicit outcome parameter (the adapter either returns a
result object or throws).
-/

namespace FoodService

/-- Order lifecycle status, mirroring the Prisma `OrderStatus` enum. -/
inductive OrderStatus where
  | PENDING
  | CONFIRMED
  | PREPARING
  | READY
  | COMPLETED
  | CANCELLED
deriving DecidableEq, Repr

/-- Payment status, mirroring the Prisma `PaymentStatus` enum. -/
inductive PaymentStatus where
  | PENDING
  | COMPLETED
  | REFUNDED
  | FAILED
deriving DecidableEq, Repr

/-- A menu item as read by `POST /api/orders` (`prisma.menuItem.findUnique`):
only `id`, `price` and the availability flag matter to the embedded routes. -/
structure MenuItem where
  id : String
  price : ℚ
  isAvailable : Bool
deriving DecidableEq, Repr

/-- One request line of the `orderItems` array in the body of `POST /api/orders`. -/
structure OrderItemReq where
  menuItemId : String
  quantity : ℚ
deriving DecidableEq, Repr

/-- A persisted order line: the price is captured from the menu item at
order time (`price: Number(menuItem.price)` in `orders.ts`). -/
structure OrderItem where
  menuItemId : String
  quantity : ℚ
  price : ℚ
deriving DecidableEq, Repr

/-- A persisted order (the fields the embedded routes read or write). -/
structure Order where
  id : String
  subtotal : ℚ
  tax : ℚ
  total : ℚ
  status : OrderStatus
  orderItems : List OrderItem
deriving DecidableEq, Repr

/-- A persisted payment record, mirroring the fields written by
`prisma.payment.create` in `payments.ts` (note: the idempotency key is
not among them). -/
structure Payment where
  id : Nat
  orderId : String
  amount : ℚ
  method : String
  squarePaymentId : Option String
  transactionId : Option String
  status : PaymentStatus
deriving DecidableEq, Repr

/-- The database state the payment/order routes touch. `nextPaymentId`
models Prisma's fresh-id generation for `payment.create`. -/
structure DB where
  orders : List Order
  payments : List Payment
  nextPaymentId : Nat
deriving DecidableEq, Repr

/-- `prisma.menuItem.findUnique` on the id referenced by a request line. -/
def findMenuItem (menu : List MenuItem) (menuItemId : String) : Option MenuItem :=
  menu.find? (fun mi => mi.id == menuItemId)

/-- `prisma.order.findUnique` by id. -/
def findOrder (db : DB) (orderId : String) : Option Order :=
  db.orders.find? (fun o => o.id == orderId)

/-- `prisma.payment.findUnique` by id. -/
def findPayment (db : DB) (paymentId : Nat) : Option Payment :=
  db.payments.find? (fun p => p.id == paymentId)

/-- The `for (const item of orderItems)` loop of `POST /api/orders`
(`orders.ts` lines 97-110): each line whose `menuItemId` resolves
contributes `price × quantity` to the subtotal and one processed line;
a line whose lookup returns nothing is skipped silently.  Returns
`(subtotal, processedOrderItems)`. -/
def buildOrderItems (menu : List MenuItem) : List OrderItemReq → ℚ × List OrderItem
  | [] => (0, [])
  | line :: rest =>
    match findMenuItem menu line.menuItemId with
    | some mi =>
      let itemTotal := mi.price * line.quantity
      let acc := buildOrderItems menu rest
      (itemTotal + acc.1, ⟨line.menuItemId, line.quantity, mi.price⟩ :: acc.2)
    | none => buildOrderItems menu rest

/-- The tax rate hard-coded in `orders.ts` line 112 (`subtotal * 0.08`). -/
def taxRate : ℚ := 8 / 100

/-- The order constructed and persisted by `POST /api/orders`
(`orders.ts` lines 93-147): subtotal from the processed lines, `tax =
subtotal * 0.08`, `total = subtotal + tax`, initial status `PENDING`. -/
def createOrder (menu : List MenuItem) (lines : List OrderItemReq) (orderId : String) :
    Order :=
  let acc := buildOrderItems menu lines
  let subtotal := acc.1
  let tax := subtotal * taxRate
  ⟨orderId, subtotal, tax, subtotal + tax, .PENDING, acc.2⟩

/-- Response space of `POST /api/orders`.  The `validationError`
constructor mirrors the HTTP 400 the spec promises for bad lines; the
embedded route is shown never to produce it. -/
inductive CreateOrderResult where
  | created (o : Order)
  | validationError
deriving DecidableEq, Repr

/-- `POST /api/orders` as a function of the request lines and the menu
table: the route always persists and returns (201) the computed order —
there is no validation branch in the source. -/
def createOrderRoute (menu : List MenuItem) (lines : List OrderItemReq)
    (orderId : String) : CreateOrderResult :=
  .created (createOrder menu lines orderId)

/-- Outcome of the external `squareService.createPayment` call (the mock in
`src/unnamed/part_004` fabricates an id; the real wrapper either returns
`response.result` or rethrows).  Passed to the route as an oracle. -/
inductive ChargeOutcome where
  | ok (squarePaymentId : String)
  | err
deriving DecidableEq, Repr

/-- Outcome of the external `squareService.refundPayment` call. -/
inductive RefundOutcome where
  | ok (refundId : String)
  | err
deriving DecidableEq, Repr

/-- Body of `POST /api/payments` (`payments.ts` line 74). -/
structure PaymentRequest where
  orderId : String
  amount : ℚ
  method : String
  transactionId : Option String
  sourceId : Option String
  idempotencyKey : Option String
deriving DecidableEq, Repr

/-- Response space of `POST /api/payments`: 404 unknown order, 400 on a
thrown Square charge, 201 with the freshly created record. -/
inductive RecordPaymentResult where
  | notFound
  | processorError
  | created (p : Payment)
deriving DecidableEq, Repr

/-- `prisma.order.update` setting the status of the order with the given id
(all other orders untouched). -/
def updateOrderStatus (orders : List Order) (orderId : String)
    (newStatus : OrderStatus) : List Order :=
  orders.map (fun o => if o.id == orderId then { o with status := newStatus } else o)

/-- The guard of `payments.ts` line 99: the Square charge is attempted only
for `method === 'CARD'` with a `sourceId` and an `idempotencyKey` present. -/
def attemptsCharge (req : PaymentRequest) : Bool :=
  req.method == "CARD" && req.sourceId.isSome && req.idempotencyKey.isSome

/-- `prisma.payment.aggregate` summing the amounts of the payments linked
to an order (`payments.ts` lines 135-138). -/
def totalPaid (payments : List Payment) (orderId : String) : ℚ :=
  ((payments.filter (fun p => p.orderId == orderId)).map (fun p => p.amount)).sum

/-- The tail of `POST /api/payments` (`payments.ts` lines 122-160): create
the payment record (status `COMPLETED` when a Square result exists, else
`PENDING`), re-aggregate the amounts linked to the order, and set the order
status to `CONFIRMED` when the aggregate reaches the order's total. -/
def finishPayment (db : DB) (order : Order) (req : PaymentRequest)
    (squarePaymentId : Option String) (squareProcessed : Bool) :
    RecordPaymentResult × DB :=
  let p : Payment :=
    ⟨db.nextPaymentId, req.orderId, req.amount, req.method, squarePaymentId,
      req.transactionId, if squareProcessed then .COMPLETED else .PENDING⟩
  let payments := db.payments ++ [p]
  let orders :=
    if order.total ≤ totalPaid payments req.orderId then
      updateOrderStatus db.orders req.orderId .CONFIRMED
    else db.orders
  (.created p, ⟨orders, payments, db.nextPaymentId + 1⟩)

/-- `POST /api/payments` (`payments.ts` lines 73-160): 404 when the order
is unknown; when the card-charge guard holds the Square outcome decides
between a 400 with no write and the persisted payment; otherwise the
payment is persisted directly with status `PENDING`. -/
def recordPayment (db : DB) (req : PaymentRequest) (charge : ChargeOutcome) :
    RecordPaymentResult × DB :=
  match findOrder db req.orderId with
  | none => (.notFound, db)
  | some order =>
    if attemptsCharge req then
      match charge with
      | .err => (.processorError, db)
      | .ok sqId => finishPayment db order req (some sqId) true
    else
      finishPayment db order req none false

/-- Response space of `PATCH /api/orders/:id/status`.  `conflictError`
mirrors the 409 the spec promises for an invalid transition; the embedded
route is shown never to produce it. -/
inductive TransitionResult where
  | notFound
  | conflictError
  | ok (o : Order)
deriving DecidableEq, Repr

/-- `PATCH /api/orders/:id/status` (`orders.ts` lines 219-276): 404 when
the order is unknown, otherwise the status is written unconditionally —
the current status is never consulted. -/
def transitionStatus (db : DB) (orderId : String) (newStatus : OrderStatus) :
    TransitionResult × DB :=
  match findOrder db orderId with
  | none => (.notFound, db)
  | some order =>
    (.ok { order with status := newStatus },
      { db with orders := updateOrderStatus db.orders orderId newStatus })

/-- `PATCH /api/kds/orders/:id/status` (`kds.ts` lines 41-68):
`prisma.order.update` directly — it throws on an unknown id (`none` here)
and otherwise writes the requested status unconditionally. -/
def kdsUpdateStatus (db : DB) (orderId : String) (newStatus : OrderStatus) :
    Option (Order × DB) :=
  (findOrder db orderId).map (fun order =>
    ({ order with status := newStatus },
      { db with orders := updateOrderStatus db.orders orderId newStatus }))

/-- Response space of `POST /api/payments/:id/refund`. -/
inductive RefundResult where
  | notFound
  | processorError
  | created (p : Payment)
deriving DecidableEq, Repr

/-- The refund record created by `payments.ts` lines 203-211: the negated
amount, the original payment's order and method, status `REFUNDED` when a
Square refund was processed, else `PENDING`. -/
def mkRefundRecord (db : DB) (payment : Payment) (amount : ℚ)
    (squareRefundId : Option String) (squareProcessed : Bool) :
    RefundResult × DB :=
  let r : Payment :=
    ⟨db.nextPaymentId, payment.orderId, -amount, payment.method, squareRefundId,
      none, if squareProcessed then .REFUNDED else .PENDING⟩
  (.created r, ⟨db.orders, db.payments ++ [r], db.nextPaymentId + 1⟩)

/-- `POST /api/payments/:id/refund` (`payments.ts` lines 163-220): 404
when the payment is unknown; a Square refund is attempted only when the
original payment carries a `squarePaymentId` (400 with no write when it
throws); the refund record is then created — the requested amount is
never compared against any balance. -/
def refundPayment (db : DB) (paymentId : Nat) (amount : ℚ)
    (square : RefundOutcome) : RefundResult × DB :=
  match findPayment db paymentId with
  | none => (.notFound, db)
  | some payment =>
    if payment.squarePaymentId.isSome then
      match square with
      | .err => (.processorError, db)
      | .ok refundId => mkRefundRecord db payment amount (some refundId) true
    else
      mkRefundRecord db payment amount none false

/-- Advisory urgency tier of `AIService.predictInventoryNeeds`. -/
inductive Urgency where
  | low
  | medium
  | high
deriving DecidableEq, Repr

/-- One element of the input array of `AIService.predictInventoryNeeds`
(`aiService.ts` lines 171-176). -/
structure InventoryDatum where
  itemName : String
  currentStock : ℚ
  dailyUsage : ℚ
  leadTime : ℚ
deriving DecidableEq, Repr

/-- One element of the output array of `AIService.predictInventoryNeeds`. -/
structure Prediction where
  itemName : String
  recommendedOrder : ℤ
  urgency : Urgency
  reason : String
deriving DecidableEq, Repr

/-- The per-item body of `AIService.predictInventoryNeeds` (`aiService.ts`
lines 183-210): `daysRemaining = currentStock / dailyUsage` (no guard on a
zero divisor), `safetyStock = dailyUsage * leadTime * 1.5`, three urgency
tiers, and `Math.max(0, recommendedOrder)` applied at the end. -/
def predictItem (item : InventoryDatum) : Prediction :=
  let daysRemaining := item.currentStock / item.dailyUsage
  let safetyStock := item.dailyUsage * item.leadTime * (3 / 2)
  if daysRemaining ≤ item.leadTime then
    ⟨item.itemName, max 0 ⌈safetyStock - item.currentStock⌉, .high,
      "Critical: Will run out before next delivery"⟩
  else if daysRemaining ≤ item.leadTime * 2 then
    ⟨item.itemName, max 0 ⌈safetyStock - item.currentStock⌉, .medium,
      "Low stock: Order soon to maintain safety levels"⟩
  else
    ⟨item.itemName, 0, .low, "Stock levels adequate"⟩

/-- `AIService.predictInventoryNeeds` maps `predictItem` over the input
array (`inventoryData.map` at `aiService.ts` line 183). -/
def predictInventoryNeeds (inventoryData : List InventoryDatum) : List Prediction :=
  inventoryData.map predictItem

/-- The per-item prediction exactly as the claim states it, for comparison
with the source's `predictItem`: `daysRemaining = currentStock /
max(1, dailyUsage)`, recommended quantity `ceil(1.5 × dailyUsage ×
leadTime − currentStock)` floored at 0 in the high and medium tiers. -/
def claimPredictItem (item : InventoryDatum) : Prediction :=
  let daysRemaining := item.currentStock / max 1 item.dailyUsage
  let recommended := max 0 ⌈3 / 2 * item.dailyUsage * item.leadTime - item.currentStock⌉
  if daysRemaining ≤ item.leadTime then
    ⟨item.itemName, recommended, .high,
      "Critical: Will run out before next delivery"⟩
  else if daysRemaining ≤ 2 * item.leadTime then
    ⟨item.itemName, recommended, .medium,
      "Low stock: Order soon to maintain safety levels"⟩
  else
    ⟨item.itemName, 0, .low, "Stock levels adequate"⟩

/-- `SquareService.verifyWebhook` (`squareService.ts` lines 272-288): the
development branch returns `true` and the fall-through "production"
branch returns `true` as well; the catch is unreachable. -/
def verifyWebhook (nodeEnv : String) (signature body url : String) : Bool :=
  if nodeEnv == "development" then true
  else true

/-- The signature gate of `POST /webhooks/square` (`index.ts` lines
101-139): 401 when `verifyWebhook` reports an invalid signature, 200 once
the event is dispatched (unknown types included). -/
def webhookStatus (nodeEnv : String) (signature body url : String) : Nat :=
  if verifyWebhook nodeEnv signature body url = false then 401
  else 200

/-- An inventory item as read by the stock route (`src/unnamed/part_006`):
the fields `PATCH /api/inventory/:id/stock` consults. -/
structure InventoryItem where
  id : String
  currentStock : ℤ
  minStock : ℤ
deriving DecidableEq, Repr

/-- The `switch (operation)` of `PATCH /api/inventory/:id/stock`
(`src/unnamed/part_006` lines 136-147): `add` and `subtract` adjust the
current stock, `set` and every other operation store the quantity
directly; no bound or clamp anywhere. -/
def adjustStock (currentStock : ℤ) (operation : String) (quantity : ℤ) : ℤ :=
  if operation == "add" then currentStock + quantity
  else if operation == "subtract" then currentStock - quantity
  else quantity

/-- `PATCH /api/inventory/:id/stock` (`src/unnamed/part_006` lines
118-164): 404 (`none`) when the item is unknown, otherwise the adjusted
stock is written back unconditionally and the updated item returned. -/
def patchStock (items : List InventoryItem) (itemId : String)
    (operation : String) (quantity : ℤ) :
    Option (InventoryItem × List InventoryItem) :=
  (items.find? (fun it => it.id == itemId)).map (fun it =>
    let newStock := adjustStock it.currentStock operation quantity
    ({ it with currentStock := newStock },
      items.map (fun j => if j.id == itemId then { j with currentStock := newStock } else j)))

/-! Helper lemmas about the order-creation loop and the status update. -/

/-- The subtotal accumulated by the order-creation loop equals the sum of
price times quantity over the processed lines. -/
theorem buildOrderItems_subtotal (menu : List MenuItem) (lines : List OrderItemReq) :
    (buildOrderItems menu lines).1
      = (((buildOrderItems menu lines).2).map (fun it => it.price * it.quantity)).sum := by
  induction lines with
  | nil => simp [buildOrderItems]
  | cons line rest ih =>
    cases h : findMenuItem menu line.menuItemId with
    | none => simpa [buildOrderItems, h] using ih
    | some mi => simp [buildOrderItems, h, ih]

/-- The lines processed by the order-creation loop are exactly the request
lines whose menu-item id resolves, each carrying the captured price; the
availability flag is never consulted. -/
theorem buildOrderItems_items (menu : List MenuItem) (lines : List OrderItemReq) :
    (buildOrderItems menu lines).2
      = lines.filterMap (fun l => (findMenuItem menu l.menuItemId).map
          (fun mi => OrderItem.mk l.menuItemId l.quantity mi.price)) := by
  induction lines with
  | nil => rfl
  | cons line rest ih =>
    cases h : findMenuItem menu line.menuItemId with
    | none => simp [buildOrderItems, h, ih]
    | some mi => simp [buildOrderItems, h, ih]

/-- Looking an order up after `updateOrderStatus` finds the previously
found order with the new status (the update preserves ids). -/
theorem find?_updateOrderStatus (orders : List Order) (orderId : String)
    (newStatus : OrderStatus) :
    (updateOrderStatus orders orderId newStatus).find? (fun o => o.id == orderId)
      = (orders.find? (fun o => o.id == orderId)).map
          (fun o => { o with status := newStatus }) := by
  induction orders with
  | nil => rfl
  | cons o os ih =>
    simp only [updateOrderStatus, List.map_cons] at *
    cases hb : (o.id == orderId) with
    | true =>
      rw [if_pos (by simp [hb]), List.find?_cons, List.find?_cons]
      simp only [hb]
      rfl
    | false =>
      rw [if_neg (by simp [hb]), List.find?_cons, List.find?_cons]
      simp only [hb]
      exact ih

/-- Claim C4: for every list of order lines, the order created by
`POST /api/orders` satisfies subtotal = Σ(captured unit price × quantity)
over its persisted lines, tax = 8 percent of subtotal, and
total = subtotal + tax. -/
theorem createOrder_total_invariant (menu : List MenuItem) (lines : List OrderItemReq)
    (orderId : String) :
    (createOrder menu lines orderId).subtotal
        = (((createOrder menu lines orderId).orderItems).map
            (fun it => it.price * it.quantity)).sum
      ∧ (createOrder menu lines orderId).tax
          = (createOrder menu lines orderId).subtotal * (8 / 100)
      ∧ (createOrder menu lines orderId).total
          = (createOrder menu lines orderId).subtotal + (createOrder menu lines orderId).tax := by
  refine ⟨?_, rfl, rfl⟩
  simpa [createOrder] using buildOrderItems_subtotal menu lines

/-- The menu of the C5 counterexample: one item that exists but is marked
unavailable. -/
def C5menu : List MenuItem := [⟨"m1", 5, false⟩]

/-- The request lines of the C5 counterexample: one line referencing the
unavailable item, one line referencing an id that resolves to nothing. -/
def C5lines : List OrderItemReq := [⟨"m1", 1⟩, ⟨"zzz", 2⟩]

/-- Claim C5 counterexample: a request with a line for an unknown item id
and a line for an unavailable item does not fail with ValidationError —
the order is created (201), the unknown line silently dropped and the
unavailable item included at its current price. -/
theorem createOrder_unknown_item_counterexample :
    createOrderRoute C5menu C5lines "o1"
        = .created ⟨"o1", 5, 2 / 5, 27 / 5, .PENDING, [⟨"m1", 1, 5⟩]⟩
      ∧ createOrderRoute C5menu C5lines "o1" ≠ .validationError := by
  constructor
  · simp [createOrderRoute, createOrder, buildOrderItems, findMenuItem, C5menu, C5lines,
      taxRate, List.find?]
    norm_num
  · simp [createOrderRoute]

/-- Claim C5 amended: order creation never fails with ValidationError:
lines referencing an unknown menu-item id are silently skipped, lines
referencing an existing item are included even when the item is
unavailable, and an order is always created (201) from the resolving
lines at their captured prices. -/
theorem createOrder_never_validation_error (menu : List MenuItem)
    (lines : List OrderItemReq) (orderId : String) :
    createOrderRoute menu lines orderId = .created (createOrder menu lines orderId)
      ∧ (createOrder menu lines orderId).orderItems
          = lines.filterMap (fun l => (findMenuItem menu l.menuItemId).map
              (fun mi => OrderItem.mk l.menuItemId l.quantity mi.price))
      ∧ createOrderRoute menu lines orderId ≠ .validationError := by
  refine ⟨rfl, ?_, by simp [createOrderRoute]⟩
  simpa [createOrder] using buildOrderItems_items menu lines

/-- Claim C9: webhook signature verification returns true for every input,
in production and non-production alike, so the 401 invalid-signature
branch of `POST /webhooks/square` is unreachable. -/
theorem verifyWebhook_always_true (nodeEnv signature body url : String) :
    verifyWebhook nodeEnv signature body url = true
      ∧ webhookStatus nodeEnv signature body url ≠ 401 := by
  constructor
  · simp [verifyWebhook]
  · simp [webhookStatus, verifyWebhook]

/-- Claim C10: on an existing inventory item, the stock route stores
oldStock + quantity for add, oldStock − quantity for subtract, quantity
for set and for any unrecognized operation; nothing clamps the result
(subtract can go negative, as the witness shows). -/
theorem patchStock_formula (items : List InventoryItem) (itemId : String) (q : ℤ)
    (item : InventoryItem) (h : items.find? (fun it => it.id == itemId) = some item) :
    (patchStock items itemId "add" q).map (fun r => r.1.currentStock)
        = some (item.currentStock + q)
      ∧ (patchStock items itemId "subtract" q).map (fun r => r.1.currentStock)
        = some (item.currentStock - q)
      ∧ (patchStock items itemId "set" q).map (fun r => r.1.currentStock) = some q
      ∧ ∀ operation : String, operation ≠ "add" → operation ≠ "subtract" →
          (patchStock items itemId operation q).map (fun r => r.1.currentStock) = some q := by
  refine ⟨?_, ?_, ?_, ?_⟩
  · simp [patchStock, h, adjustStock]
  · simp [patchStock, h, adjustStock]
  · simp [patchStock, h, adjustStock]
  · intro operation h1 h2
    simp [patchStock, h, adjustStock, h1, h2]

/-- Witness for C10: a concrete item at stock 5; subtract 8 stores −3
(negative, unclamped, below the min stock of 10), set and an unrecognized
operation store the quantity. -/
theorem patchStock_formula_witness :
    (patchStock [⟨"i1", 5, 10⟩] "i1" "add" 8).map (fun r => r.1.currentStock) = some 13
      ∧ (patchStock [⟨"i1", 5, 10⟩] "i1" "subtract" 8).map (fun r => r.1.currentStock)
        = some (-3)
      ∧ (patchStock [⟨"i1", 5, 10⟩] "i1" "set" 8).map (fun r => r.1.currentStock) = some 8
      ∧ (patchStock [⟨"i1", 5, 10⟩] "i1" "reset" 8).map (fun r => r.1.currentStock)
        = some 8 := by
  obtain ⟨h1, h2, h3, h4⟩ :=
    patchStock_formula [⟨"i1", 5, 10⟩] "i1" 8 ⟨"i1", 5, 10⟩ (by simp)
  exact ⟨by simpa using h1, by simpa using h2, h3, h4 "reset" (by decide) (by decide)⟩

/-- Unfolding of `finishPayment`: the created record, the appended payment
table, the bumped id counter, and the conditional status write. -/
theorem finishPayment_spec (db : DB) (order : Order) (req : PaymentRequest)
    (sqId : Option String) (proc : Bool) :
    ∃ p db',
      finishPayment db order req sqId proc = (.created p, db')
        ∧ p = ⟨db.nextPaymentId, req.orderId, req.amount, req.method, sqId,
            req.transactionId, if proc then .COMPLETED else .PENDING⟩
        ∧ db'.payments = db.payments ++ [p]
        ∧ db'.nextPaymentId = db.nextPaymentId + 1
        ∧ db'.orders = (if order.total ≤ totalPaid (db.payments ++ [p]) req.orderId
            then updateOrderStatus db.orders req.orderId .CONFIRMED else db.orders) := by
  exact ⟨_, _, rfl, rfl, rfl, rfl, rfl⟩

/-- With a successful (or unneeded) Square charge, `recordPayment` on a
found order reduces to `finishPayment`. -/
theorem recordPayment_ok_eq (db : DB) (req : PaymentRequest) (sqId : String)
    (order : Order) (h : findOrder db req.orderId = some order) :
    recordPayment db req (.ok sqId)
      = finishPayment db order req
          (if attemptsCharge req then some sqId else none) (attemptsCharge req) := by
  by_cases hc : attemptsCharge req = true <;> simp [recordPayment, h, hc]

/-- Looking up the order that was just status-updated. -/
theorem findOrder_after_update (orders : List Order) (orderId : String)
    (newStatus : OrderStatus) (o : Order)
    (h : orders.find? (fun x => x.id == orderId) = some o) :
    (updateOrderStatus orders orderId newStatus).find? (fun x => x.id == orderId)
      = some { o with status := newStatus } := by
  rw [find?_updateOrderStatus, h]
  rfl

/-- Appending one payment linked to the order adds its amount to the
aggregate. -/
theorem totalPaid_append (payments : List Payment) (p : Payment) (orderId : String)
    (h : p.orderId = orderId) :
    totalPaid (payments ++ [p]) orderId = totalPaid payments orderId + p.amount := by
  simp [totalPaid, List.filter_append, h]

/-- The database of the C2 counterexample: a single order already in the
terminal status COMPLETED. -/
def C2db : DB := ⟨[⟨"o1", 100, 8, 108, .COMPLETED, []⟩], [], 1⟩

/-- Claim C2 counterexample: transitioning an order out of the terminal
status COMPLETED back to PENDING is committed with success by
`PATCH /api/orders/:id/status` — no ConflictError — and the KDS route
likewise commits a transition out of CANCELLED. -/
theorem transitionStatus_counterexample :
    transitionStatus C2db "o1" .PENDING
        = (.ok ⟨"o1", 100, 8, 108, .PENDING, []⟩,
            ⟨[⟨"o1", 100, 8, 108, .PENDING, []⟩], [], 1⟩)
      ∧ (transitionStatus C2db "o1" .PENDING).1 ≠ .conflictError
      ∧ kdsUpdateStatus ⟨[⟨"o2", 100, 8, 108, .CANCELLED, []⟩], [], 1⟩ "o2" .PREPARING
        = some (⟨"o2", 100, 8, 108, .PREPARING, []⟩,
            ⟨[⟨"o2", 100, 8, 108, .PREPARING, []⟩], [], 1⟩) := by
  refine ⟨rfl, ?_, rfl⟩
  rw [show transitionStatus C2db "o1" .PENDING
      = (.ok ⟨"o1", 100, 8, 108, .PENDING, []⟩,
          ⟨[⟨"o1", 100, 8, 108, .PENDING, []⟩], [], 1⟩) from rfl]
  simp

/-- Claim C2 amended: the status-transition routes validate nothing about
the current status: an unknown order id fails (404 for the orders route,
a thrown update for the KDS route), and otherwise any requested status —
including transitions out of Completed or Cancelled — is committed and
returned; no ConflictError is ever produced. -/
theorem transitionStatus_no_validation (db : DB) (orderId : String)
    (newStatus : OrderStatus) :
    (findOrder db orderId = none →
        transitionStatus db orderId newStatus = (.notFound, db)
          ∧ kdsUpdateStatus db orderId newStatus = none)
      ∧ (∀ order : Order, findOrder db orderId = some order →
          transitionStatus db orderId newStatus
              = (.ok { order with status := newStatus },
                  { db with orders := updateOrderStatus db.orders orderId newStatus })
            ∧ kdsUpdateStatus db orderId newStatus
              = some ({ order with status := newStatus },
                  { db with orders := updateOrderStatus db.orders orderId newStatus }))
      ∧ (transitionStatus db orderId newStatus).1 ≠ TransitionResult.conflictError := by
  refine ⟨?_, ?_, ?_⟩
  · intro h
    exact ⟨by simp [transitionStatus, h], by simp [kdsUpdateStatus, h]⟩
  · intro order h
    exact ⟨by simp [transitionStatus, h], by simp [kdsUpdateStatus, h]⟩
  · cases h : findOrder db orderId <;> simp [transitionStatus, h]

/-- Witness for C2: the amended theorem applied to a one-order database in
status COMPLETED, transitioning it to PREPARING: the write is committed by
both routes. -/
theorem transitionStatus_no_validation_witness :
    transitionStatus ⟨[⟨"w2", 50, 4, 54, .COMPLETED, []⟩], [], 1⟩ "w2" .PREPARING
        = (.ok ⟨"w2", 50, 4, 54, .PREPARING, []⟩,
            ⟨[⟨"w2", 50, 4, 54, .PREPARING, []⟩], [], 1⟩)
      ∧ kdsUpdateStatus ⟨[⟨"w2", 50, 4, 54, .COMPLETED, []⟩], [], 1⟩ "w2" .PREPARING
        = some (⟨"w2", 50, 4, 54, .PREPARING, []⟩,
            ⟨[⟨"w2", 50, 4, 54, .PREPARING, []⟩], [], 1⟩) := by
  obtain ⟨-, hsome, -⟩ :=
    transitionStatus_no_validation ⟨[⟨"w2", 50, 4, 54, .COMPLETED, []⟩], [], 1⟩ "w2" .PREPARING
  obtain ⟨h1, h2⟩ := hsome ⟨"w2", 50, 4, 54, .COMPLETED, []⟩ (by simp [findOrder])
  exact ⟨by simpa [updateOrderStatus] using h1, by simpa [updateOrderStatus] using h2⟩

/-- Claim C7: when the order exists, the method is card, and a source id
and idempotency key are supplied, a failing Square charge makes
`POST /api/payments` return the processor error with the database
untouched: no payment record is persisted and the order status is
unchanged. -/
theorem recordPayment_failure_no_persist (db : DB) (req : PaymentRequest) (order : Order)
    (h : findOrder db req.orderId = some order) (hm : req.method = "CARD")
    (hs : req.sourceId.isSome = true) (hk : req.idempotencyKey.isSome = true) :
    recordPayment db req .err = (.processorError, db) := by
  simp [recordPayment, h, attemptsCharge, hm, hs, hk]

/-- Witness for C7: a concrete card request on an existing order with a
failing charge returns the error and leaves the database exactly as it
was. -/
theorem recordPayment_failure_no_persist_witness :
    recordPayment ⟨[⟨"w7", 100, 8, 108, .PENDING, []⟩], [], 1⟩
        ⟨"w7", 10, "CARD", none, some "src", some "K"⟩ .err
      = (.processorError, ⟨[⟨"w7", 100, 8, 108, .PENDING, []⟩], [], 1⟩) :=
  recordPayment_failure_no_persist ⟨[⟨"w7", 100, 8, 108, .PENDING, []⟩], [], 1⟩
    ⟨"w7", 10, "CARD", none, some "src", some "K"⟩ ⟨"w7", 100, 8, 108, .PENDING, []⟩
    (by simp [findOrder]) rfl rfl rfl

/-- The database of the C1 counterexample: one order, no payments yet. -/
def C1db : DB := ⟨[⟨"o1", 100, 8, 108, .PENDING, []⟩], [], 1⟩

/-- The replayed request of the C1 counterexample: a card payment with
idempotency key K. -/
def C1req : PaymentRequest := ⟨"o1", 10, "CARD", none, some "src", some "K"⟩

/-- Claim C1 counterexample: submitting the same card payment request
(same order, same idempotency key K, same amount, even the same external
Square result) twice leaves two persisted payment records linked to the
order, and the second response carries a different payment record than
the first — not the prior result. -/
theorem recordPayment_idempotency_counterexample :
    ((recordPayment (recordPayment C1db C1req (.ok "sq_1")).2 C1req (.ok "sq_1")).2.payments.filter
        (fun p => p.orderId == "o1")).length = 2
      ∧ (recordPayment C1db C1req (.ok "sq_1")).1
          ≠ (recordPayment (recordPayment C1db C1req (.ok "sq_1")).2 C1req (.ok "sq_1")).1 := by
  have h1 : recordPayment C1db C1req (.ok "sq_1")
      = (.created ⟨1, "o1", 10, "CARD", some "sq_1", none, .COMPLETED⟩,
          ⟨[⟨"o1", 100, 8, 108, .PENDING, []⟩],
            [⟨1, "o1", 10, "CARD", some "sq_1", none, .COMPLETED⟩], 2⟩) := by
    simp [C1db, C1req, recordPayment, findOrder, attemptsCharge, finishPayment, totalPaid,
      updateOrderStatus, List.find?]
    norm_num
  have h2 : recordPayment (recordPayment C1db C1req (.ok "sq_1")).2 C1req (.ok "sq_1")
      = (.created ⟨2, "o1", 10, "CARD", some "sq_1", none, .COMPLETED⟩,
          ⟨[⟨"o1", 100, 8, 108, .PENDING, []⟩],
            [⟨1, "o1", 10, "CARD", some "sq_1", none, .COMPLETED⟩,
             ⟨2, "o1", 10, "CARD", some "sq_1", none, .COMPLETED⟩], 3⟩) := by
    rw [h1]
    simp [C1req, recordPayment, findOrder, attemptsCharge, finishPayment, totalPaid,
      updateOrderStatus, List.find?]
    norm_num
  rw [h2, h1]
  simp

/-- Claim C1 amended: `POST /api/payments` performs no idempotency-key
lookup or deduplication: every call that passes the order-existence check
and whose Square charge (attempted only for card requests with a source
id and key) does not fail persists a fresh payment record under a new id,
so replaying the same (orderId, idempotencyKey, amount) yields two
persisted payment records and two responses with distinct payment ids;
at-most-one-charge-per-key can hold only inside the external processor,
never in the local payment table. -/
theorem recordPayment_replay_duplicates (db : DB) (req : PaymentRequest) (sqId : String)
    (order : Order) (h : findOrder db req.orderId = some order) :
    ∃ p1 p2 db1 db2,
      recordPayment db req (.ok sqId) = (.created p1, db1)
        ∧ recordPayment db1 req (.ok sqId) = (.created p2, db2)
        ∧ p1.id = db.nextPaymentId ∧ p2.id = db.nextPaymentId + 1 ∧ p1.id ≠ p2.id
        ∧ db2.payments = db.payments ++ [p1, p2] := by
  rw [recordPayment_ok_eq db req sqId order h]
  obtain ⟨p1, db1, e1, hp1, hpay1, hn1, hord1⟩ := finishPayment_spec db order req _ _
  obtain ⟨o1, ho1⟩ : ∃ o1, findOrder db1 req.orderId = some o1 := by
    simp only [findOrder] at h ⊢
    rw [hord1]
    split
    · exact ⟨_, findOrder_after_update db.orders req.orderId .CONFIRMED order h⟩
    · exact ⟨order, h⟩
  obtain ⟨p2, db2, e2, hp2, hpay2, hn2, hord2⟩ := finishPayment_spec db1 o1 req _ _
  rw [e1]
  refine ⟨p1, p2, db1, db2, rfl, ?_, by rw [hp1], ?_, ?_, ?_⟩
  · rw [recordPayment_ok_eq db1 req sqId o1 ho1]
    exact e2
  · rw [hp2, hn1]
  · rw [hp1, hp2, hn1]
    simp
  · rw [hpay2, hpay1, List.append_assoc]
    rfl

/-- Witness for C1: the amended theorem applied to the concrete database
and request of the counterexample: both calls create records and the ids
db.nextPaymentId = 1 and 2 differ. -/
theorem recordPayment_replay_duplicates_witness :
    (recordPayment (recordPayment C1db C1req (.ok "sq_1")).2 C1req (.ok "sq_1")).2.payments.length
      = C1db.payments.length + 2 := by
  obtain ⟨p1, p2, db1, db2, e1, e2, hid1, hid2, hne, hpay⟩ :=
    recordPayment_replay_duplicates C1db C1req "sq_1" ⟨"o1", 100, 8, 108, .PENDING, []⟩
      (by simp [C1db, C1req, findOrder])
  simp [e1, e2, hpay]

/-- The database of the C3 counterexample: an order with total 108 already
fully paid by payment 1 (the threshold was reached earlier) and manually
advanced to READY. -/
def C3db : DB :=
  ⟨[⟨"o1", 100, 8, 108, .READY, []⟩],
    [⟨1, "o1", 108, "CASH", none, none, .COMPLETED⟩], 2⟩

/-- The later cash payment of the C3 counterexample. -/
def C3req : PaymentRequest := ⟨"o1", 5, "CASH", none, none, none⟩

/-- Claim C3 counterexample: the cumulative payments of the order already
reach its total of 108 before the call, and the order has moved on to
READY; recording one more payment of 5 nevertheless sets the status back
to CONFIRMED — the transition is not limited to the first time the
threshold is reached. -/
theorem recordPayment_threshold_counterexample :
    (108 : ℚ) ≤ totalPaid C3db.payments "o1"
      ∧ (findOrder C3db "o1").map Order.status = some .READY
      ∧ ((findOrder (recordPayment C3db C3req .err).2 "o1").map Order.status
          = some .CONFIRMED) := by
  refine ⟨?_, rfl, ?_⟩
  · simp [C3db, totalPaid, List.filter]
  · have h : recordPayment C3db C3req .err
        = (.created ⟨2, "o1", 5, "CASH", none, none, .PENDING⟩,
            ⟨[⟨"o1", 100, 8, 108, .CONFIRMED, []⟩],
              [⟨1, "o1", 108, "CASH", none, none, .COMPLETED⟩,
               ⟨2, "o1", 5, "CASH", none, none, .PENDING⟩], 3⟩) := by
      simp [C3db, C3req, recordPayment, findOrder, attemptsCharge, finishPayment, totalPaid,
        updateOrderStatus, List.find?, List.filter]
    rw [h]
    rfl

/-- Claim C3 amended: recording a payment sets the order status to
Confirmed precisely when the cumulative sum of all linked payment amounts
including the new record reaches or exceeds the order total — never while
the sum is below the total (the status is then left untouched) — but it
does so on every such call, not only when the threshold is first crossed:
a later payment on an already fully paid order resets a more advanced
status back to Confirmed. -/
theorem recordPayment_threshold (db : DB) (req : PaymentRequest) (sqId : String)
    (order : Order) (h : findOrder db req.orderId = some order) :
    ∃ p db',
      recordPayment db req (.ok sqId) = (.created p, db')
        ∧ p.amount = req.amount ∧ p.orderId = req.orderId
        ∧ db'.payments = db.payments ++ [p]
        ∧ (order.total ≤ totalPaid (db.payments ++ [p]) req.orderId →
            findOrder db' req.orderId = some { order with status := OrderStatus.CONFIRMED })
        ∧ (¬ order.total ≤ totalPaid (db.payments ++ [p]) req.orderId →
            findOrder db' req.orderId = some order) := by
  rw [recordPayment_ok_eq db req sqId order h]
  obtain ⟨p, db', e, hp, hpay, hn, hord⟩ := finishPayment_spec db order req _ _
  refine ⟨p, db', e, by rw [hp], by rw [hp], hpay, ?_, ?_⟩
  · intro ht
    simp only [findOrder] at h ⊢
    rw [hord, if_pos ht]
    exact findOrder_after_update db.orders req.orderId .CONFIRMED order h
  · intro ht
    simp only [findOrder] at h ⊢
    rw [hord, if_neg ht]
    exact h

/-- Witness for C3: the amended theorem applied to an order with total 108
and no prior payments receiving a payment of 120: the sum 120 reaches the
total, so the order is found CONFIRMED afterwards. -/
theorem recordPayment_threshold_witness :
    (findOrder (recordPayment ⟨[⟨"w3", 100, 8, 108, .PENDING, []⟩], [], 1⟩
        ⟨"w3", 120, "CASH", none, none, none⟩ (.ok "sq_w3")).2 "w3").map Order.status
      = some .CONFIRMED := by
  obtain ⟨p, db', e, hamt, hoid, hpay, hyes, hno⟩ :=
    recordPayment_threshold ⟨[⟨"w3", 100, 8, 108, .PENDING, []⟩], [], 1⟩
      ⟨"w3", 120, "CASH", none, none, none⟩ "sq_w3" ⟨"w3", 100, 8, 108, .PENDING, []⟩
      (by simp [findOrder])
  have ht : (⟨"w3", 100, 8, 108, OrderStatus.PENDING, []⟩ : Order).total
      ≤ totalPaid (([] : List Payment) ++ [p]) "w3" := by
    rw [totalPaid_append [] p "w3" hoid, hamt]
    simp [totalPaid]
    norm_num
  rw [e]
  rw [show ((RecordPaymentResult.created p, db') : RecordPaymentResult × DB).2 = db' from rfl]
  rw [hyes ht]
  rfl

/-- The database of the C6 counterexample: one order with a single cash
payment of 5, so the unrefunded balance of payment 1 is 5. -/
def C6db : DB :=
  ⟨[⟨"o1", 20, 8 / 5, 108 / 5, .PENDING, []⟩],
    [⟨1, "o1", 5, "CASH", none, none, .COMPLETED⟩], 2⟩

/-- Claim C6 counterexample: the unrefunded balance of payment 1 is 5, yet
a refund request for 100 creates a −100 refund record (201) instead of
being rejected; the external refund outcome is irrelevant because the
payment has no external reference. -/
theorem refundPayment_over_refund_counterexample :
    totalPaid C6db.payments "o1" = 5
      ∧ refundPayment C6db 1 100 .err
        = (.created ⟨2, "o1", -100, "CASH", none, none, .PENDING⟩,
            ⟨[⟨"o1", 20, 8 / 5, 108 / 5, .PENDING, []⟩],
              [⟨1, "o1", 5, "CASH", none, none, .COMPLETED⟩,
               ⟨2, "o1", -100, "CASH", none, none, .PENDING⟩], 3⟩) := by
  constructor
  · simp [C6db, totalPaid, List.filter]
  · simp [C6db, refundPayment, findPayment, mkRefundRecord, List.find?]

/-- Claim C6 amended: the refund route never compares the requested amount
against any balance: whenever the payment exists, and the external refund
(attempted only when the payment carries a Square reference) does not
fail, a refund record of the full negated amount is appended — for any
requested amount, including amounts exceeding the unrefunded balance. -/
theorem refundPayment_no_bound (db : DB) (paymentId : Nat) (amount : ℚ)
    (refundId : String) (payment : Payment)
    (h : findPayment db paymentId = some payment) :
    ∃ r db',
      refundPayment db paymentId amount (.ok refundId) = (.created r, db')
        ∧ r.amount = -amount ∧ r.orderId = payment.orderId
        ∧ db'.payments = db.payments ++ [r] ∧ db'.orders = db.orders := by
  simp only [refundPayment, h]
  by_cases hs : payment.squarePaymentId.isSome = true
  · rw [if_pos hs]
    exact ⟨_, _, rfl, rfl, rfl, rfl, rfl⟩
  · rw [if_neg hs]
    exact ⟨_, _, rfl, rfl, rfl, rfl, rfl⟩

/-- Witness for C6: the amended theorem applied to the counterexample
database with a requested amount of 100 against the balance of 5: the
resulting payment table holds the original 5 and the new −100. -/
theorem refundPayment_no_bound_witness :
    ((refundPayment C6db 1 100 (.ok "r1")).2.payments.map (fun p => p.amount)) = [5, -100]
      ∧ totalPaid C6db.payments "o1" < 100 := by
  obtain ⟨r, db', e, ha, ho, hpay, hord⟩ :=
    refundPayment_no_bound C6db 1 100 "r1" ⟨1, "o1", 5, "CASH", none, none, .COMPLETED⟩
      (by simp [C6db, findPayment])
  constructor
  · rw [e]
    rw [show ((RefundResult.created r, db') : RefundResult × DB).2 = db' from rfl]
    rw [hpay]
    simp [C6db, ha]
  · simp [C6db, totalPaid, List.filter]
    norm_num

/-- Claim C8 counterexample: at currentStock 3, dailyUsage 1/2, leadTime 2,
the source computes daysRemaining = 3 / (1/2) = 6 > 2·leadTime and
reports urgency low, while the formula of the claim — daysRemaining =
3 / max(1, 1/2) = 3 ≤ 2·leadTime — demands urgency medium: the claimed
max(1, dailyUsage) guard is not in the code. -/
theorem predictInventoryNeeds_counterexample :
    (predictItem ⟨"flour", 3, 1 / 2, 2⟩).urgency = Urgency.low
      ∧ (claimPredictItem ⟨"flour", 3, 1 / 2, 2⟩).urgency = Urgency.medium
      ∧ predictInventoryNeeds [⟨"flour", 3, 1 / 2, 2⟩]
          ≠ [claimPredictItem ⟨"flour", 3, 1 / 2, 2⟩] := by
  refine ⟨?_, ?_, ?_⟩
  · norm_num [predictItem]
  · norm_num [claimPredictItem]
  · norm_num [predictInventoryNeeds, predictItem, claimPredictItem]
    intro _ hu
    exact absurd hu (by decide)

/-- Claim C8 amended: for positive dailyUsage (where the rational model
matches the JS arithmetic of the source), the prediction uses
daysRemaining = currentStock / dailyUsage — without the claimed
max(1, dailyUsage) guard: urgency high with recommended quantity
ceil(1.5 × dailyUsage × leadTime − currentStock) floored at 0 when
daysRemaining ≤ leadTime, medium with the same quantity when
daysRemaining ≤ 2 × leadTime, and otherwise low with quantity 0; the
function maps this rule over the input list. -/
theorem predictItem_formula (item : InventoryDatum) (h : 0 < item.dailyUsage) :
    (item.currentStock / item.dailyUsage ≤ item.leadTime →
        predictItem item = ⟨item.itemName,
          max 0 ⌈3 / 2 * item.dailyUsage * item.leadTime - item.currentStock⌉, .high,
          "Critical: Will run out before next delivery"⟩)
      ∧ (¬ item.currentStock / item.dailyUsage ≤ item.leadTime →
          item.currentStock / item.dailyUsage ≤ 2 * item.leadTime →
          predictItem item = ⟨item.itemName,
            max 0 ⌈3 / 2 * item.dailyUsage * item.leadTime - item.currentStock⌉, .medium,
            "Low stock: Order soon to maintain safety levels"⟩)
      ∧ (¬ item.currentStock / item.dailyUsage ≤ item.leadTime →
          ¬ item.currentStock / item.dailyUsage ≤ 2 * item.leadTime →
          predictItem item = ⟨item.itemName, 0, .low, "Stock levels adequate"⟩)
      ∧ predictInventoryNeeds [item] = [predictItem item] := by
  have hmul : item.dailyUsage * item.leadTime * (3 / 2)
      = 3 / 2 * item.dailyUsage * item.leadTime := by ring
  have hlt : item.leadTime * 2 = 2 * item.leadTime := by ring
  refine ⟨?_, ?_, ?_, rfl⟩
  · intro ht
    simp only [predictItem, hmul, hlt]
    rw [if_pos ht]
  · intro ht1 ht2
    simp only [predictItem, hmul, hlt]
    rw [if_neg ht1, if_pos ht2]
  · intro ht1 ht2
    simp only [predictItem, hmul, hlt]
    rw [if_neg ht1, if_neg ht2]

/-- Witness for C8: the amended theorem applied at the example of the
claim, currentStock 3, dailyUsage 5, leadTime 3: daysRemaining 3/5 ≤ 3
gives urgency high with recommended quantity ⌈45/2 − 3⌉ = 20. -/
theorem predictItem_formula_witness :
    (0 : ℚ) < 5
      ∧ predictItem ⟨"tomato", 3, 5, 3⟩
        = ⟨"tomato", 20, .high, "Critical: Will run out before next delivery"⟩ := by
  have h5 : (0 : ℚ) < 5 := by norm_num
  obtain ⟨hhigh, -, -, -⟩ := predictItem_formula ⟨"tomato", 3, 5, 3⟩ h5
  refine ⟨h5, ?_⟩
  rw [hhigh (by norm_num)]
  have hc : ((3 : ℚ) / 2 * 5 * 3 - 3) = 39 / 2 := by norm_num
  rw [hc, show ⌈(39 : ℚ) / 2⌉ = (20 : ℤ) from by norm_num [Int.ceil_eq_iff]]
  norm_num

end FoodService
